import Mathlib

/-!
Shallow embedding of the `ez_al` audio library (src/ez_al/src/lib.rs).

The native OpenAL layer (`linear_model_allen`) is a black box: every native
call either succeeds or fails with an opaque `AllenError`.  We model it by an
oracle `NativeEnv : Nat → Option AllenError` giving the outcome of the i-th
native call (`none` = success), an explicit record of mutable native state,
and a trace (`List NativeCall`) of the native calls a function performs.
`f32` values are modelled as `Rat`: the library only stores and reads them
back, never computes with them, so any value type with decidable equality is
faithful.  A Rust `let _ = call` is modelled by performing the call (trace +
state update on success) and discarding the outcome; a Rust `.unwrap()` on a
failing call is a panic, modelled by an `Option` result with `none` = panic.
-/

/-- Opaque native (OpenAL) error value. -/
abbrev AllenError := Nat

/-- Outcome oracle for native calls: `env i = none` means the i-th native
call succeeds, `env i = some e` means it fails with error `e`. -/
abbrev NativeEnv := Nat → Option AllenError

/-- Channel tag passed to the native buffer-upload call. -/
inductive Channels
  | Mono
  | Stereo
deriving DecidableEq, Repr

/-- 3-component vector (`[f32; 3]` in the source). -/
abbrev Vec3 := Rat × Rat × Rat

/-- The `SoundError` enum of the source, with opaque payloads. -/
inductive SoundError
  | CurrentDeviceGettingError
  | ContextCreationError (err : AllenError)
  | SoundAssetLoadingError (err : Nat)
  | BufferCreationFailedError (err : AllenError)
  | SourceCreationFailedError (err : AllenError)
  | WrongSoundSourceType
  | SettingPositionError (err : AllenError)
  | TooMuchChannels
  | FsError (err : Nat)
deriving DecidableEq, Repr

/-- One native call, as recorded in a trace. -/
inductive NativeCall
  | newBuffer
  | bufferData (data : List Int) (channels : Channels) (sampleRate : Int)
  | newSource
  | setRelative (b : Bool)
  | setBuffer (buf : Option Nat)
  | setReferenceDistance (v : Rat)
  | setRolloffFactor (v : Rat)
  | setMinGain (v : Rat)
  | setLooping (b : Bool)
  | getLooping
  | play
  | setMaxDistance (v : Rat)
  | getMaxDistance
  | setPosition (p : Vec3)
  | setGain (v : Rat)
  | setMaxGain (v : Rat)
  | getGain
  | listenerSetPosition (p : Vec3)
  | listenerSetOrientation (a : Vec3) (up : Vec3)
deriving DecidableEq, Repr

/-- Native state of one OpenAL source handle. -/
structure SourceState where
  relative : Bool
  boundBuffer : Option Nat
  referenceDistance : Rat
  rolloffFactor : Rat
  minGain : Rat
  gain : Rat
  maxGain : Rat
  looping : Bool
  maxDistance : Rat
  position : Vec3
deriving DecidableEq, Repr

/-- The `SoundSourceType` enum of the source. -/
inductive SoundSourceType
  | Simple
  | Positional
deriving DecidableEq, Repr

/-- A `SoundAsset` as seen by `SoundSource::new`: the id of its primary
device buffer and, if present, of its mono-downmix buffer. -/
structure SoundAssetRef where
  buffer : Nat
  mono_buffer : Option Nat
deriving DecidableEq, Repr

/-- Embedding of `SoundSource::new`.  `t` is the index of the next native
call, `init` the fresh native source state the driver hands back.  Result:
`none` means the process panicked (the `set_relative(true).unwrap()` in the
`Simple` arm); otherwise the typed result, paired with the call trace. -/
def SoundSource.new (env : NativeEnv) (t : Nat) (asset : SoundAssetRef)
    (source_type : SoundSourceType) (init : SourceState) :
    Option (Except SoundError (SoundSourceType × SourceState)) × List NativeCall :=
  match env t with
  | some e => (some (Except.error (SoundError.SourceCreationFailedError e)), [NativeCall.newSource])
  | none =>
    match source_type with
    | SoundSourceType.Simple =>
      match env (t + 1) with
      | some _ => (none, [NativeCall.newSource, NativeCall.setRelative true])
      | none =>
        let st1 := { init with relative := true }
        let st2 := if (env (t + 2)).isNone then { st1 with boundBuffer := some asset.buffer } else st1
        (some (Except.ok (SoundSourceType.Simple, st2)),
         [NativeCall.newSource, NativeCall.setRelative true,
          NativeCall.setBuffer (some asset.buffer)])
    | SoundSourceType.Positional =>
      let st1 := if (env (t + 1)).isNone then { init with referenceDistance := 0 } else init
      let st2 := if (env (t + 2)).isNone then { st1 with rolloffFactor := 1 } else st1
      let st3 := if (env (t + 3)).isNone then { st2 with minGain := 0 } else st2
      let target := match asset.mono_buffer with
        | some mono_buffer => mono_buffer
        | none => asset.buffer
      let st4 := if (env (t + 4)).isNone then { st3 with boundBuffer := some target } else st3
      (some (Except.ok (SoundSourceType.Positional, st4)),
       [NativeCall.newSource, NativeCall.setReferenceDistance 0,
        NativeCall.setRolloffFactor 1, NativeCall.setMinGain 0,
        NativeCall.setBuffer (some target)])

/-- Embedding of `SoundSource::set_looping` (native outcome discarded). -/
def SoundSource.set_looping (env : NativeEnv) (t : Nat) (st : SourceState) (should_loop : Bool) :
    SourceState × List NativeCall :=
  (if (env t).isNone then { st with looping := should_loop } else st,
   [NativeCall.setLooping should_loop])

/-- Embedding of `SoundSource::is_looping`; the source unwraps the native
read, so a native failure is a panic (`none`). -/
def SoundSource.is_looping (env : NativeEnv) (t : Nat) (st : SourceState) :
    Option Bool × List NativeCall :=
  match env t with
  | none => (some st.looping, [NativeCall.getLooping])
  | some _ => (none, [NativeCall.getLooping])

/-- Embedding of `SoundSource::play_sound` (native outcome discarded). -/
def SoundSource.play_sound (_env : NativeEnv) (_t : Nat) (st : SourceState) :
    SourceState × List NativeCall :=
  (st, [NativeCall.play])

/-- Embedding of `SoundSource::set_max_distance`: the kind is checked first,
then the native set is attempted with its outcome discarded. -/
def SoundSource.set_max_distance (source_type : SoundSourceType) (env : NativeEnv) (t : Nat)
    (st : SourceState) (distance : Rat) :
    Except SoundError Unit × SourceState × List NativeCall :=
  match source_type with
  | SoundSourceType.Simple => (Except.error SoundError.WrongSoundSourceType, st, [])
  | SoundSourceType.Positional =>
    (Except.ok (),
     if (env t).isNone then { st with maxDistance := distance } else st,
     [NativeCall.setMaxDistance distance])

/-- Embedding of `SoundSource::get_max_distance`: kind checked first; in the
`Positional` arm the native read is unwrapped (panic on failure). -/
def SoundSource.get_max_distance (source_type : SoundSourceType) (env : NativeEnv) (t : Nat)
    (st : SourceState) :
    Option (Except SoundError Rat) × SourceState × List NativeCall :=
  match source_type with
  | SoundSourceType.Simple =>
    (some (Except.error SoundError.WrongSoundSourceType), st, [])
  | SoundSourceType.Positional =>
    match env t with
    | none => (some (Except.ok st.maxDistance), st, [NativeCall.getMaxDistance])
    | some _ => (none, st, [NativeCall.getMaxDistance])

/-- Embedding of `SoundSource::update`: the source performs the native
position set unconditionally — it never inspects `source_type` — and
surfaces a native failure as `SettingPositionError`. -/
def SoundSource.update (_source_type : SoundSourceType) (env : NativeEnv) (t : Nat)
    (st : SourceState) (sound_position : Vec3) :
    Except SoundError Unit × SourceState × List NativeCall :=
  match env t with
  | none => (Except.ok (), { st with position := sound_position },
             [NativeCall.setPosition sound_position])
  | some e => (Except.error (SoundError.SettingPositionError e), st,
               [NativeCall.setPosition sound_position])

/-- Embedding of `SoundSource::set_volume`: sets native gain, then native
max-gain, both outcomes discarded. -/
def SoundSource.set_volume (env : NativeEnv) (t : Nat) (st : SourceState) (volume : Rat) :
    SourceState × List NativeCall :=
  let st1 := if (env t).isNone then { st with gain := volume } else st
  let st2 := if (env (t + 1)).isNone then { st1 with maxGain := volume } else st1
  (st2, [NativeCall.setGain volume, NativeCall.setMaxGain volume])

/-- Embedding of `SoundSource::volume`: reads native gain and returns the
native error directly on failure (`Result<f32, AllenError>`). -/
def SoundSource.volume (env : NativeEnv) (t : Nat) (st : SourceState) :
    Except AllenError Rat × List NativeCall :=
  match env t with
  | none => (Except.ok st.gain, [NativeCall.getGain])
  | some e => (Except.error e, [NativeCall.getGain])

/-- Native listener state of the current context. -/
structure ListenerState where
  position : Vec3
  orientAt : Vec3
  orientUp : Vec3
deriving DecidableEq, Repr

/-- Embedding of the free function `set_listener_position` (outcome discarded). -/
def set_listener_position (env : NativeEnv) (t : Nat) (ls : ListenerState) (position : Vec3) :
    ListenerState × List NativeCall :=
  (if (env t).isNone then { ls with position := position } else ls,
   [NativeCall.listenerSetPosition position])

/-- Embedding of the free function `set_listener_orientation` (outcome discarded). -/
def set_listener_orientation (env : NativeEnv) (t : Nat) (ls : ListenerState)
    (a : Vec3) (up : Vec3) : ListenerState × List NativeCall :=
  (if (env t).isNone then { ls with orientAt := a, orientUp := up } else ls,
   [NativeCall.listenerSetOrientation a up])

/-- Embedding of the free function `set_listener_transform`: calls
`set_listener_position` then `set_listener_orientation`. -/
def set_listener_transform (env : NativeEnv) (t : Nat) (ls : ListenerState)
    (position : Vec3) (a : Vec3) (up : Vec3) : ListenerState × List NativeCall :=
  let r1 := set_listener_position env t ls position
  let r2 := set_listener_orientation env (t + 1) r1.1 a up
  (r2.1, r1.2 ++ r2.2)

/-- Contents uploaded to one device buffer: interleaved 16-bit PCM data,
channel tag, sample rate. -/
structure BufferContents where
  data : List Int
  channels : Channels
  sampleRate : Int
deriving DecidableEq, Repr

/-- A decoded `SoundAsset`: the primary (full-channel) buffer and, for
stereo input, the mono-downmix buffer. -/
structure SoundAsset where
  buffer : BufferContents
  mono_buffer : Option BufferContents
deriving DecidableEq, Repr

/-- Every other element, starting with the first (Rust `step_by(2)` on an
iterator; also channel 0 of a 2-channel interleaved stream, which is what
`wavers`' channel iterator yields first for stereo data). -/
def everyOther : List Int → List Int
  | [] => []
  | [x] => [x]
  | x :: _ :: rest => x :: everyOther rest

/-- Interleaving of two channels of equal length: `[l0, r0, l1, r1, ...]`.
Used only to state what a well-formed stereo stream looks like. -/
def interleave (L R : List Int) : List Int :=
  (L.zip R).foldr (fun p acc => p.1 :: p.2 :: acc) []

/-- A WAV file as `from_wav` observes it through `wavers`: opening/parsing
can fail (`openErr`), reading the samples can fail (`readErr`), or the file
yields a channel count, a sample rate and the interleaved samples. -/
inductive WavFile
  | openErr (err : Nat)
  | readErr (err : Nat)
  | ok (n_channels : Nat) (sample_rate : Int) (samples : List Int)
deriving DecidableEq, Repr

/-- Embedding of `SoundAsset::from_wav`.  Mirrors the source control flow:
open/read errors become `SoundAssetLoadingError`; the primary device buffer
is created BEFORE the channel count is examined; 2-channel input creates a
second buffer and uploads the first channel (`wavers`' channel iterator,
first element) as mono; channel counts other than 1 and 2 fail with
`TooMuchChannels`; finally the primary data is uploaded. -/
def SoundAsset.from_wav (env : NativeEnv) (t : Nat) (file : WavFile) :
    Except SoundError SoundAsset × List NativeCall :=
  match file with
  | WavFile.openErr e => (Except.error (SoundError.SoundAssetLoadingError e), [])
  | WavFile.readErr e => (Except.error (SoundError.SoundAssetLoadingError e), [])
  | WavFile.ok n_channels sample_rate samples =>
    match env t with
    | some e => (Except.error (SoundError.BufferCreationFailedError e), [NativeCall.newBuffer])
    | none =>
      if n_channels = 1 then
        match env (t + 1) with
        | some e =>
          (Except.error (SoundError.BufferCreationFailedError e),
           [NativeCall.newBuffer, NativeCall.bufferData samples Channels.Mono sample_rate])
        | none =>
          (Except.ok ⟨⟨samples, Channels.Mono, sample_rate⟩, none⟩,
           [NativeCall.newBuffer, NativeCall.bufferData samples Channels.Mono sample_rate])
      else if n_channels = 2 then
        match env (t + 1) with
        | some e =>
          (Except.error (SoundError.BufferCreationFailedError e),
           [NativeCall.newBuffer, NativeCall.newBuffer])
        | none =>
          let ch0 := everyOther samples
          match env (t + 2) with
          | some e =>
            (Except.error (SoundError.BufferCreationFailedError e),
             [NativeCall.newBuffer, NativeCall.newBuffer,
              NativeCall.bufferData ch0 Channels.Mono sample_rate])
          | none =>
            match env (t + 3) with
            | some e =>
              (Except.error (SoundError.BufferCreationFailedError e),
               [NativeCall.newBuffer, NativeCall.newBuffer,
                NativeCall.bufferData ch0 Channels.Mono sample_rate,
                NativeCall.bufferData samples Channels.Stereo sample_rate])
            | none =>
              (Except.ok ⟨⟨samples, Channels.Stereo, sample_rate⟩,
                          some ⟨ch0, Channels.Mono, sample_rate⟩⟩,
               [NativeCall.newBuffer, NativeCall.newBuffer,
                NativeCall.bufferData ch0 Channels.Mono sample_rate,
                NativeCall.bufferData samples Channels.Stereo sample_rate])
      else
        (Except.error SoundError.TooMuchChannels, [NativeCall.newBuffer])

/-- One MP3 frame as produced by `minimp3`. -/
structure Mp3Frame where
  channels : Nat
  data : List Int
  sample_rate : Int
deriving DecidableEq, Repr

/-- An MP3 file as `from_mp3` observes it: opening can fail (`openErr`, an
`std::io::Error`), otherwise the decoder yields a stream of frame results
that the `while let Ok(frame)` loop consumes until the first error. -/
inductive Mp3File
  | openErr (err : Nat)
  | ok (stream : List (Except Nat Mp3Frame))

/-- Frames the `while let Ok(frame)` loop sees: the longest prefix of
successful decode results; everything at and after the first decoder error
is dropped. -/
def decodedFrames : List (Except Nat Mp3Frame) → List Mp3Frame
  | [] => []
  | Except.ok f :: rest => f :: decodedFrames rest
  | Except.error _ :: _ => []

/-- Body of the `from_mp3` decode loop: accumulates samples, records the
last frame's sample rate, upgrades the channel tag to `Stereo` on any frame
with more than one channel, and fails with `TooMuchChannels` on the first
frame with more than two channels. -/
def mp3Loop : List Mp3Frame → List Int → Int → Channels →
    Except SoundError (List Int × Int × Channels)
  | [], samples, sample_rate, channels => Except.ok (samples, sample_rate, channels)
  | f :: rest, samples, _, channels =>
    if f.channels > 2 then Except.error SoundError.TooMuchChannels
    else mp3Loop rest (samples ++ f.data) f.sample_rate
      (if f.channels > 1 then Channels.Stereo else channels)

/-- Embedding of `SoundAsset::from_mp3`.  Mirrors the source control flow:
an open failure becomes `FsError`; the decode loop starts from no samples,
sample rate 44100 and a `Mono` tag; only after the loop does the function
create the primary buffer and upload the samples, and for stereo it then
creates a second buffer and uploads `step_by(2)` of the samples as mono. -/
def SoundAsset.from_mp3 (env : NativeEnv) (t : Nat) (file : Mp3File) :
    Except SoundError SoundAsset × List NativeCall :=
  match file with
  | Mp3File.openErr e => (Except.error (SoundError.FsError e), [])
  | Mp3File.ok stream =>
    match mp3Loop (decodedFrames stream) [] 44100 Channels.Mono with
    | Except.error err => (Except.error err, [])
    | Except.ok (samples, sample_rate, channels) =>
      match env t with
      | some e => (Except.error (SoundError.BufferCreationFailedError e), [NativeCall.newBuffer])
      | none =>
        match channels with
        | Channels.Mono =>
          match env (t + 1) with
          | some e =>
            (Except.error (SoundError.BufferCreationFailedError e),
             [NativeCall.newBuffer, NativeCall.bufferData samples Channels.Mono sample_rate])
          | none =>
            (Except.ok ⟨⟨samples, Channels.Mono, sample_rate⟩, none⟩,
             [NativeCall.newBuffer, NativeCall.bufferData samples Channels.Mono sample_rate])
        | Channels.Stereo =>
          match env (t + 1) with
          | some e =>
            (Except.error (SoundError.BufferCreationFailedError e),
             [NativeCall.newBuffer, NativeCall.bufferData samples Channels.Stereo sample_rate])
          | none =>
            match env (t + 2) with
            | some e =>
              (Except.error (SoundError.BufferCreationFailedError e),
               [NativeCall.newBuffer, NativeCall.bufferData samples Channels.Stereo sample_rate,
                NativeCall.newBuffer])
            | none =>
              let mono_samples := everyOther samples
              match env (t + 3) with
              | some e =>
                (Except.error (SoundError.BufferCreationFailedError e),
                 [NativeCall.newBuffer, NativeCall.bufferData samples Channels.Stereo sample_rate,
                  NativeCall.newBuffer,
                  NativeCall.bufferData mono_samples Channels.Mono sample_rate])
              | none =>
                (Except.ok ⟨⟨samples, Channels.Stereo, sample_rate⟩,
                            some ⟨mono_samples, Channels.Mono, sample_rate⟩⟩,
                 [NativeCall.newBuffer, NativeCall.bufferData samples Channels.Stereo sample_rate,
                  NativeCall.newBuffer,
                  NativeCall.bufferData mono_samples Channels.Mono sample_rate])

/-- Sample rate after the decode loop: the last frame's rate, or the initial
value when there is no frame. -/
def finalRate (frames : List Mp3Frame) (r : Int) : Int :=
  frames.foldl (fun _ f => f.sample_rate) r

/-- Channel tag after the decode loop: upgraded to `Stereo` by any frame
with more than one channel. -/
def finalChannels (frames : List Mp3Frame) (ch : Channels) : Channels :=
  frames.foldl (fun acc f => if f.channels > 1 then Channels.Stereo else acc) ch

/-- All-success native environment. -/
def allOk : NativeEnv := fun _ => none

/-- Native environment failing exactly the call with index 4. -/
def env4 : NativeEnv := fun i => if i = 4 then some 9 else none

/-- Native environment failing every call. -/
def envFail : NativeEnv := fun _ => some 3

/-- A concrete fresh native source state. -/
def st0 : SourceState :=
  { relative := false, boundBuffer := none, referenceDistance := 0, rolloffFactor := 0,
    minGain := 0, gain := 1, maxGain := 1, looping := false, maxDistance := 0,
    position := (0, 0, 0) }

/-- A concrete listener state. -/
def ls0 : ListenerState := ⟨(0, 0, 0), (0, 0, 1), (0, 1, 0)⟩

theorem interleave_nil (R : List Int) : interleave [] R = [] := rfl

theorem interleave_cons (x y : Int) (xs ys : List Int) :
    interleave (x :: xs) (y :: ys) = x :: y :: interleave xs ys := rfl

theorem everyOther_cons_cons (a b : Int) (l : List Int) :
    everyOther (a :: b :: l) = a :: everyOther l := rfl

theorem everyOther_interleave : ∀ (L R : List Int), L.length = R.length →
    everyOther (interleave L R) = L
  | [], _, _ => rfl
  | x :: xs, R, h => by
    cases R with
    | nil => simp at h
    | cons y ys =>
      have hx : xs.length = ys.length := by simpa using h
      rw [interleave_cons, everyOther_cons_cons, everyOther_interleave xs ys hx]

theorem length_interleave : ∀ (L R : List Int), L.length = R.length →
    (interleave L R).length = L.length + R.length
  | [], _, h => by simp [interleave_nil, ← h]
  | x :: xs, R, h => by
    cases R with
    | nil => simp at h
    | cons y ys =>
      have hx : xs.length = ys.length := by simpa using h
      rw [interleave_cons]
      simp [length_interleave xs ys hx]
      omega

theorem everyOther_append_even : ∀ (l m : List Int), l.length % 2 = 0 →
    everyOther (l ++ m) = everyOther l ++ everyOther m
  | [], _, _ => rfl
  | [x], _, h => by simp at h
  | a :: b :: rest, m, h => by
    have h2 : rest.length % 2 = 0 := by
      simp only [List.length_cons] at h
      omega
    simp only [List.cons_append, everyOther_cons_cons,
      everyOther_append_even rest m h2]

theorem decodedFrames_before_error (good : List Mp3Frame) (e : Nat)
    (rest : List (Except Nat Mp3Frame)) :
    decodedFrames (good.map Except.ok ++ Except.error e :: rest) = good := by
  induction good with
  | nil => rfl
  | cons f g ih => simp [decodedFrames, ih]

theorem mp3Loop_ok (frames : List Mp3Frame) :
    ∀ (s : List Int) (r : Int) (ch : Channels), (∀ f ∈ frames, f.channels ≤ 2) →
    mp3Loop frames s r ch =
      Except.ok (s ++ (frames.map Mp3Frame.data).flatten, finalRate frames r,
                 finalChannels frames ch) := by
  induction frames with
  | nil => intro s r ch _; simp [mp3Loop, finalRate, finalChannels]
  | cons f rest ih =>
    intro s r ch h
    have hf : ¬ f.channels > 2 := by
      have := h f (by simp)
      omega
    have hrest : ∀ g ∈ rest, g.channels ≤ 2 := fun g hg => h g (by simp [hg])
    simp only [mp3Loop, if_neg hf, ih _ _ _ hrest, finalRate, finalChannels,
      List.foldl_cons, List.map_cons, List.flatten]
    simp

theorem mp3Loop_err (frames : List Mp3Frame) :
    ∀ (s : List Int) (r : Int) (ch : Channels), (∃ f ∈ frames, 2 < f.channels) →
    mp3Loop frames s r ch = Except.error SoundError.TooMuchChannels := by
  induction frames with
  | nil => intro s r ch h; simp at h
  | cons f rest ih =>
    intro s r ch h
    by_cases hf : f.channels > 2
    · simp [mp3Loop, if_pos hf]
    · have : ∃ g ∈ rest, 2 < g.channels := by
        rcases h with ⟨g, hg, hgc⟩
        rcases List.mem_cons.mp hg with rfl | hg2
        · omega
        · exact ⟨g, hg2, hgc⟩
      simp [mp3Loop, if_neg hf, ih _ _ _ this]

theorem finalChannels_stereo (frames : List Mp3Frame) :
    finalChannels frames Channels.Stereo = Channels.Stereo := by
  induction frames with
  | nil => rfl
  | cons f rest ih =>
    simp only [finalChannels, List.foldl_cons] at *
    by_cases hf : f.channels > 1 <;> simp [hf, ih]

theorem finalChannels_of_all_le_one (frames : List Mp3Frame) :
    ∀ ch, (∀ f ∈ frames, f.channels ≤ 1) → finalChannels frames ch = ch := by
  induction frames with
  | nil => intro ch _; rfl
  | cons f rest ih =>
    intro ch h
    have hf : ¬ f.channels > 1 := by
      have := h f (by simp)
      omega
    have hrest : ∀ g ∈ rest, g.channels ≤ 1 := fun g hg => h g (by simp [hg])
    simp only [finalChannels, List.foldl_cons, if_neg hf] at *
    exact ih ch hrest

theorem finalChannels_of_mem (frames : List Mp3Frame) :
    ∀ ch f, f ∈ frames → 1 < f.channels → finalChannels frames ch = Channels.Stereo := by
  induction frames with
  | nil => intro ch f h; simp at h
  | cons g rest ih =>
    intro ch f hmem hf
    rcases List.mem_cons.mp hmem with rfl | h2
    · simp only [finalChannels, List.foldl_cons, if_pos hf]
      exact finalChannels_stereo rest
    · by_cases hg : g.channels > 1
      · simp only [finalChannels, List.foldl_cons, if_pos hg]
        exact finalChannels_stereo rest
      · simp only [finalChannels, List.foldl_cons, if_neg hg]
        exact ih _ f h2 hf

/-- C1: on a `Simple` source, `set_max_distance` and `get_max_distance`
return `WrongSoundSourceType` without any native call, but `update` never
checks the source kind: it performs the native position set and returns
`Ok(())` when the native layer accepts it — contradicting the doc of
`SoundError::WrongSoundSourceType`, whose own example is "trying to access
position when source's type is Simple". -/
theorem c1_simple_update_performs_native_call :
    SoundSource.set_max_distance SoundSourceType.Simple allOk 0 st0 5 =
      (Except.error SoundError.WrongSoundSourceType, st0, []) ∧
    SoundSource.get_max_distance SoundSourceType.Simple allOk 0 st0 =
      (some (Except.error SoundError.WrongSoundSourceType), st0, []) ∧
    SoundSource.update SoundSourceType.Simple allOk 0 st0 (1, 2, 3) =
      (Except.ok (), { st0 with position := (1, 2, 3) },
       [NativeCall.setPosition (1, 2, 3)]) :=
  ⟨rfl, rfl, rfl⟩

/-- C6 counterexample: an MP3 file that cannot be opened fails with
`FsError`, not with `SoundAssetLoadingError` as the claim states. -/
theorem c6_counterexample :
    SoundAsset.from_mp3 allOk 0 (Mp3File.openErr 7) =
      (Except.error (SoundError.FsError 7), []) ∧
    SoundError.FsError 7 ≠ SoundError.SoundAssetLoadingError 7 :=
  ⟨rfl, by decide⟩

/-- C6 (amended): `from_wav` fails with `SoundAssetLoadingError` when the
file cannot be opened/parsed or its samples cannot be read; `from_mp3`
fails with `FsError` when the file cannot be opened.  (Undecodable MP3
contents do not fail at all; see C10.)  No native call is made on any of
these paths. -/
theorem c6_load_failure_errors :
    (∀ (env : NativeEnv) (t : Nat) (e : Nat),
      SoundAsset.from_wav env t (WavFile.openErr e) =
        (Except.error (SoundError.SoundAssetLoadingError e), [])) ∧
    (∀ (env : NativeEnv) (t : Nat) (e : Nat),
      SoundAsset.from_wav env t (WavFile.readErr e) =
        (Except.error (SoundError.SoundAssetLoadingError e), [])) ∧
    (∀ (env : NativeEnv) (t : Nat) (e : Nat),
      SoundAsset.from_mp3 env t (Mp3File.openErr e) =
        (Except.error (SoundError.FsError e), [])) :=
  ⟨fun _ _ _ => rfl, fun _ _ _ => rfl, fun _ _ _ => rfl⟩

/-- C8 counterexample: `is_looping` unwraps the native read, so when the
native call fails it panics (`none`) instead of returning normally. -/
theorem c8_counterexample :
    SoundSource.is_looping (fun _ => some 3) 0 st0 =
      (none, [NativeCall.getLooping]) :=
  rfl

/-- C8 (amended): `set_listener_position`, `set_listener_orientation`,
`set_listener_transform`, `set_looping` and `set_volume` swallow native
failures — on failure the native state is left unchanged and the function
still returns normally — and `set_listener_transform` is exactly
`set_listener_position` followed by `set_listener_orientation`.
`is_looping`, however, unwraps the native read: it returns the stored flag
when the read succeeds and panics when it fails. -/
theorem c8_steady_state_updates :
    (∀ (env : NativeEnv) (t : Nat) (ls : ListenerState) (p : Vec3) (e : AllenError),
      env t = some e →
      set_listener_position env t ls p = (ls, [NativeCall.listenerSetPosition p])) ∧
    (∀ (env : NativeEnv) (t : Nat) (ls : ListenerState) (a up : Vec3) (e : AllenError),
      env t = some e →
      set_listener_orientation env t ls a up = (ls, [NativeCall.listenerSetOrientation a up])) ∧
    (∀ (env : NativeEnv) (t : Nat) (ls : ListenerState) (p a up : Vec3),
      set_listener_transform env t ls p a up =
        ((set_listener_orientation env (t + 1) (set_listener_position env t ls p).1 a up).1,
         (set_listener_position env t ls p).2 ++
           (set_listener_orientation env (t + 1) (set_listener_position env t ls p).1 a up).2)) ∧
    (∀ (env : NativeEnv) (t : Nat) (st : SourceState) (b : Bool) (e : AllenError),
      env t = some e →
      SoundSource.set_looping env t st b = (st, [NativeCall.setLooping b])) ∧
    (∀ (env : NativeEnv) (t : Nat) (st : SourceState) (v : Rat) (e1 e2 : AllenError),
      env t = some e1 → env (t + 1) = some e2 →
      SoundSource.set_volume env t st v =
        (st, [NativeCall.setGain v, NativeCall.setMaxGain v])) ∧
    (∀ (env : NativeEnv) (t : Nat) (st : SourceState),
      env t = none →
      SoundSource.is_looping env t st = (some st.looping, [NativeCall.getLooping])) ∧
    (∀ (env : NativeEnv) (t : Nat) (st : SourceState) (e : AllenError),
      env t = some e →
      SoundSource.is_looping env t st = (none, [NativeCall.getLooping])) := by
  refine ⟨?_, ?_, ?_, ?_, ?_, ?_, ?_⟩
  · intro env t ls p e h
    simp [set_listener_position, h]
  · intro env t ls a up e h
    simp [set_listener_orientation, h]
  · intro env t ls p a up
    rfl
  · intro env t st b e h
    simp [SoundSource.set_looping, h]
  · intro env t st v e1 e2 h1 h2
    simp [SoundSource.set_volume, h1, h2]
  · intro env t st h
    simp [SoundSource.is_looping, h]
  · intro env t st e h
    simp [SoundSource.is_looping, h]

/-- C8 witness: the amended statement instantiated at concrete inputs — an
all-failing native environment for the swallowing parts and an all-success
one for the `is_looping` read. -/
theorem c8_witness :
    set_listener_position envFail 0 ls0 (1, 2, 3) =
      (ls0, [NativeCall.listenerSetPosition (1, 2, 3)]) ∧
    SoundSource.set_volume envFail 0 st0 5 =
      (st0, [NativeCall.setGain 5, NativeCall.setMaxGain 5]) ∧
    SoundSource.is_looping allOk 0 st0 = (some st0.looping, [NativeCall.getLooping]) ∧
    SoundSource.is_looping envFail 0 st0 = (none, [NativeCall.getLooping]) :=
  ⟨c8_steady_state_updates.1 envFail 0 ls0 (1, 2, 3) 3 rfl,
   (c8_steady_state_updates.2.2.2.2.1) envFail 0 st0 5 3 3 rfl rfl,
   (c8_steady_state_updates.2.2.2.2.2.1) allOk 0 st0 rfl,
   (c8_steady_state_updates.2.2.2.2.2.2) envFail 0 st0 3 rfl⟩

/-- C9: `set_volume(v)` sets both the native gain and the native max-gain
to `v`; when those native sets and the subsequent read succeed,
`set_volume(v)` followed by `volume()` returns `Ok(v)`; and `volume()`
surfaces a native read failure directly as an error.  Neither function
inspects the source kind, so this holds for `Simple` and `Positional`
sources alike. -/
theorem c9_volume_roundtrip (env : NativeEnv) (t : Nat) (st : SourceState) (v : Rat)
    (h0 : env t = none) (h1 : env (t + 1) = none) (h2 : env (t + 2) = none) :
    ((SoundSource.set_volume env t st v).1.gain = v ∧
     (SoundSource.set_volume env t st v).1.maxGain = v) ∧
    SoundSource.volume env (t + 2) (SoundSource.set_volume env t st v).1 =
      (Except.ok v, [NativeCall.getGain]) ∧
    (∀ (env2 : NativeEnv) (t2 : Nat) (st2 : SourceState) (e : AllenError),
      env2 t2 = some e →
      SoundSource.volume env2 t2 st2 = (Except.error e, [NativeCall.getGain])) := by
  refine ⟨⟨?_, ?_⟩, ?_, ?_⟩
  · simp [SoundSource.set_volume, h0, h1]
  · simp [SoundSource.set_volume, h0, h1]
  · simp [SoundSource.set_volume, SoundSource.volume, h0, h1, h2]
  · intro env2 t2 st2 e h
    simp [SoundSource.volume, h]

/-- C9 witness: the round trip at `v = 1/4` under an all-success native
environment, plus error surfacing under an all-failure environment. -/
theorem c9_volume_roundtrip_witness :
    ((SoundSource.set_volume allOk 0 st0 (1 / 4)).1.gain = 1 / 4 ∧
     (SoundSource.set_volume allOk 0 st0 (1 / 4)).1.maxGain = 1 / 4) ∧
    SoundSource.volume allOk 2 (SoundSource.set_volume allOk 0 st0 (1 / 4)).1 =
      (Except.ok (1 / 4), [NativeCall.getGain]) ∧
    (∀ (env2 : NativeEnv) (t2 : Nat) (st2 : SourceState) (e : AllenError),
      env2 t2 = some e →
      SoundSource.volume env2 t2 st2 = (Except.error e, [NativeCall.getGain])) :=
  c9_volume_roundtrip allOk 0 st0 (1 / 4) rfl rfl rfl

/-- C2: when every native call succeeds, `SoundSource::new` configures the
source by kind — `Positional` initializes reference distance 0, rolloff
factor 1, min gain 0 and binds the asset's mono buffer when present, else
its primary buffer; `Simple` marks the source listener-relative and binds
the primary buffer. -/
theorem c2_new_binds_by_kind (env : NativeEnv) (t : Nat) (asset : SoundAssetRef)
    (init : SourceState) (h : ∀ i, env i = none) :
    SoundSource.new env t asset SoundSourceType.Positional init =
      (some (Except.ok (SoundSourceType.Positional,
        { init with
          referenceDistance := 0, rolloffFactor := 1, minGain := 0
          boundBuffer := some (asset.mono_buffer.getD asset.buffer) })),
       [NativeCall.newSource, NativeCall.setReferenceDistance 0,
        NativeCall.setRolloffFactor 1, NativeCall.setMinGain 0,
        NativeCall.setBuffer (some (asset.mono_buffer.getD asset.buffer))]) ∧
    SoundSource.new env t asset SoundSourceType.Simple init =
      (some (Except.ok (SoundSourceType.Simple,
        { init with relative := true, boundBuffer := some asset.buffer })),
       [NativeCall.newSource, NativeCall.setRelative true,
        NativeCall.setBuffer (some asset.buffer)]) := by
  constructor
  · cases hm : asset.mono_buffer <;> simp [SoundSource.new, h, hm]
  · simp [SoundSource.new, h]

/-- C2 witness: a stereo asset (mono buffer id 1, primary id 0) binds the
mono buffer for `Positional`, and the primary buffer for `Simple`. -/
theorem c2_new_binds_by_kind_witness :
    SoundSource.new allOk 0 ⟨0, some 1⟩ SoundSourceType.Positional st0 =
      (some (Except.ok (SoundSourceType.Positional,
        { st0 with
          referenceDistance := 0, rolloffFactor := 1, minGain := 0
          boundBuffer := some 1 })),
       [NativeCall.newSource, NativeCall.setReferenceDistance 0,
        NativeCall.setRolloffFactor 1, NativeCall.setMinGain 0,
        NativeCall.setBuffer (some 1)]) ∧
    SoundSource.new allOk 0 ⟨0, some 1⟩ SoundSourceType.Simple st0 =
      (some (Except.ok (SoundSourceType.Simple,
        { st0 with relative := true, boundBuffer := some 0 })),
       [NativeCall.newSource, NativeCall.setRelative true,
        NativeCall.setBuffer (some 0)]) :=
  c2_new_binds_by_kind allOk 0 ⟨0, some 1⟩ st0 (fun _ => rfl)

/-- C7 counterexample: with a native layer that fails exactly the buffer
binding call (index 4), `SoundSource::new` for a `Positional` source still
returns `Ok` and no buffer is bound — the binding failure is silently
absorbed instead of aborting construction with a typed error. -/
theorem c7_counterexample :
    env4 4 = some 9 ∧
    SoundSource.new env4 0 ⟨7, none⟩ SoundSourceType.Positional st0 =
      (some (Except.ok (SoundSourceType.Positional,
        { st0 with referenceDistance := 0, rolloffFactor := 1, minGain := 0 })),
       [NativeCall.newSource, NativeCall.setReferenceDistance 0,
        NativeCall.setRolloffFactor 1, NativeCall.setMinGain 0,
        NativeCall.setBuffer (some 7)]) ∧
    ({ st0 with
       referenceDistance := 0, rolloffFactor := 1, minGain := 0 } :
       SourceState).boundBuffer = none :=
  ⟨rfl, rfl, rfl⟩

/-- C7 (amended): native source creation failure is surfaced as
`SourceCreationFailedError` and aborts construction; but buffer-binding
failures are silently ignored (construction still returns `Ok` with no
buffer bound), and for a `Simple` source a failure of the
listener-relative setup (`set_relative`) panics instead of returning a
typed error. -/
theorem c7_construction_failure_policy :
    (∀ (env : NativeEnv) (t : Nat) (asset : SoundAssetRef) (ty : SoundSourceType)
       (init : SourceState) (e : AllenError), env t = some e →
       SoundSource.new env t asset ty init =
         (some (Except.error (SoundError.SourceCreationFailedError e)),
          [NativeCall.newSource])) ∧
    (∀ (env : NativeEnv) (t : Nat) (asset : SoundAssetRef) (init : SourceState)
       (e : AllenError), env t = none → env (t + 4) = some e →
       ∃ st calls, SoundSource.new env t asset SoundSourceType.Positional init =
         (some (Except.ok (SoundSourceType.Positional, st)), calls) ∧
         st.boundBuffer = init.boundBuffer) ∧
    (∀ (env : NativeEnv) (t : Nat) (asset : SoundAssetRef) (init : SourceState)
       (e : AllenError), env t = none → env (t + 1) = none → env (t + 2) = some e →
       ∃ st calls, SoundSource.new env t asset SoundSourceType.Simple init =
         (some (Except.ok (SoundSourceType.Simple, st)), calls) ∧
         st.boundBuffer = init.boundBuffer) ∧
    (∀ (env : NativeEnv) (t : Nat) (asset : SoundAssetRef) (init : SourceState)
       (e : AllenError), env t = none → env (t + 1) = some e →
       (SoundSource.new env t asset SoundSourceType.Simple init).1 = none) := by
  refine ⟨?_, ?_, ?_, ?_⟩
  · intro env t asset ty init e h
    simp [SoundSource.new, h]
  · intro env t asset init e h0 h4
    by_cases h1 : (env (t + 1)).isNone <;> by_cases h2 : (env (t + 2)).isNone <;>
      by_cases h3 : (env (t + 3)).isNone <;>
      simp [SoundSource.new, h0, h4, h1, h2, h3]
  · intro env t asset init e h0 h1 h2
    simp [SoundSource.new, h0, h1, h2]
  · intro env t asset init e h0 h1
    simp [SoundSource.new, h0, h1]

/-- C7 witness: source creation failure surfaces a typed error; a failed
binding call is absorbed; a failed `set_relative` call panics. -/
theorem c7_witness :
    SoundSource.new envFail 0 ⟨7, none⟩ SoundSourceType.Positional st0 =
      (some (Except.error (SoundError.SourceCreationFailedError 3)),
       [NativeCall.newSource]) ∧
    (∃ st calls, SoundSource.new env4 0 ⟨7, none⟩ SoundSourceType.Positional st0 =
       (some (Except.ok (SoundSourceType.Positional, st)), calls) ∧
       st.boundBuffer = st0.boundBuffer) ∧
    (SoundSource.new (fun i => if i = 1 then some 5 else none) 0 ⟨7, none⟩
       SoundSourceType.Simple st0).1 = none :=
  ⟨c7_construction_failure_policy.1 envFail 0 ⟨7, none⟩ SoundSourceType.Positional st0 3 rfl,
   c7_construction_failure_policy.2.1 env4 0 ⟨7, none⟩ st0 9 rfl rfl,
   c7_construction_failure_policy.2.2.2 (fun i => if i = 1 then some 5 else none) 0
     ⟨7, none⟩ st0 5 rfl rfl⟩

/-- C5 counterexample: on a 3-channel WAV file, `from_wav` does fail with
`TooMuchChannels`, but only after making a buffer-creation native call —
the claim that no buffer-creation call happens on this path is false. -/
theorem c5_counterexample :
    SoundAsset.from_wav allOk 0 (WavFile.ok 3 44100 [0, 1, 2]) =
      (Except.error SoundError.TooMuchChannels, [NativeCall.newBuffer]) ∧
    NativeCall.newBuffer ∈ (SoundAsset.from_wav allOk 0 (WavFile.ok 3 44100 [0, 1, 2])).2 :=
  ⟨rfl, show NativeCall.newBuffer ∈ [NativeCall.newBuffer] by simp⟩

/-- C5 (amended): for channel counts other than 1 and 2, `from_mp3` fails
with `TooMuchChannels` making no native call at all, while `from_wav`
makes exactly one buffer-creation call first — when that call succeeds it
fails with `TooMuchChannels`, otherwise with `BufferCreationFailedError` —
and performs no buffer upload on either failure. -/
theorem c5_unsupported_channel_layout :
    (∀ (env : NativeEnv) (t : Nat) (nch : Nat) (rate : Int) (samples : List Int),
       nch ≠ 1 → nch ≠ 2 → env t = none →
       SoundAsset.from_wav env t (WavFile.ok nch rate samples) =
         (Except.error SoundError.TooMuchChannels, [NativeCall.newBuffer])) ∧
    (∀ (env : NativeEnv) (t : Nat) (nch : Nat) (rate : Int) (samples : List Int)
       (e : AllenError), nch ≠ 1 → nch ≠ 2 → env t = some e →
       SoundAsset.from_wav env t (WavFile.ok nch rate samples) =
         (Except.error (SoundError.BufferCreationFailedError e), [NativeCall.newBuffer])) ∧
    (∀ (env : NativeEnv) (t : Nat) (stream : List (Except Nat Mp3Frame)),
       (∃ f ∈ decodedFrames stream, 2 < f.channels) →
       SoundAsset.from_mp3 env t (Mp3File.ok stream) =
         (Except.error SoundError.TooMuchChannels, [])) := by
  refine ⟨?_, ?_, ?_⟩
  · intro env t nch rate samples h1 h2 henv
    simp [SoundAsset.from_wav, h1, h2, henv]
  · intro env t nch rate samples e h1 h2 henv
    simp [SoundAsset.from_wav, h1, h2, henv]
  · intro env t stream hex
    simp [SoundAsset.from_mp3, mp3Loop_err (decodedFrames stream) _ _ _ hex]

/-- C5 witness: a 3-channel WAV under a succeeding and under a failing
buffer-creation call, and an MP3 stream whose first frame has 4 channels. -/
theorem c5_witness :
    SoundAsset.from_wav allOk 0 (WavFile.ok 3 44100 []) =
      (Except.error SoundError.TooMuchChannels, [NativeCall.newBuffer]) ∧
    SoundAsset.from_wav envFail 0 (WavFile.ok 0 44100 []) =
      (Except.error (SoundError.BufferCreationFailedError 3), [NativeCall.newBuffer]) ∧
    SoundAsset.from_mp3 allOk 0 (Mp3File.ok [Except.ok ⟨4, [], 44100⟩]) =
      (Except.error SoundError.TooMuchChannels, []) :=
  ⟨c5_unsupported_channel_layout.1 allOk 0 3 44100 [] (by decide) (by decide) rfl,
   c5_unsupported_channel_layout.2.1 envFail 0 0 44100 [] 3 (by decide) (by decide) rfl,
   c5_unsupported_channel_layout.2.2 allOk 0 [Except.ok ⟨4, [], 44100⟩]
     ⟨⟨4, [], 44100⟩, by simp [decodedFrames], by decide⟩⟩

/-- C10: the decode loop consumes exactly the frames before the first
decoder error; when the native buffer calls succeed, `from_mp3` returns
`Ok` with a buffer holding just those frames' samples and the last decoded
frame's sample rate; when the very first decode result is an error the
asset is empty with the default sample rate 44100. -/
theorem c10_mp3_partial_decode :
    (∀ (good : List Mp3Frame) (e : Nat) (rest : List (Except Nat Mp3Frame)),
       decodedFrames (good.map Except.ok ++ Except.error e :: rest) = good) ∧
    (∀ (env : NativeEnv) (t : Nat) (stream : List (Except Nat Mp3Frame)),
       (∀ i, env i = none) → (∀ f ∈ decodedFrames stream, f.channels ≤ 2) →
       ∃ asset calls,
         SoundAsset.from_mp3 env t (Mp3File.ok stream) = (Except.ok asset, calls) ∧
         asset.buffer.data = ((decodedFrames stream).map Mp3Frame.data).flatten ∧
         asset.buffer.sampleRate = finalRate (decodedFrames stream) 44100) ∧
    (∀ (env : NativeEnv) (t : Nat) (e : Nat) (rest : List (Except Nat Mp3Frame)),
       (∀ i, env i = none) →
       SoundAsset.from_mp3 env t (Mp3File.ok (Except.error e :: rest)) =
         (Except.ok ⟨⟨[], Channels.Mono, 44100⟩, none⟩,
          [NativeCall.newBuffer, NativeCall.bufferData [] Channels.Mono 44100])) := by
  refine ⟨decodedFrames_before_error, ?_, ?_⟩
  · intro env t stream henv hch
    have hloop := mp3Loop_ok (decodedFrames stream) [] 44100 Channels.Mono hch
    cases hc : finalChannels (decodedFrames stream) Channels.Mono <;>
      simp [SoundAsset.from_mp3, hloop, hc, henv]
  · intro env t e rest henv
    simp [SoundAsset.from_mp3, decodedFrames, mp3Loop, henv]

/-- C10 witness: a stream with one good mono frame followed by a decoder
error and a further (never reached) good frame yields an asset holding
just the first frame's samples at its rate; a stream failing immediately
yields an empty buffer at 44100. -/
theorem c10_mp3_partial_decode_witness :
    decodedFrames [Except.ok ⟨1, [5, 6], 48000⟩, Except.error 2, Except.ok ⟨1, [9], 32000⟩] =
      [⟨1, [5, 6], 48000⟩] ∧
    (∃ asset calls,
       SoundAsset.from_mp3 allOk 0
           (Mp3File.ok [Except.ok ⟨1, [5, 6], 48000⟩, Except.error 2,
                        Except.ok ⟨1, [9], 32000⟩]) = (Except.ok asset, calls) ∧
       asset.buffer.data =
         ((decodedFrames [Except.ok ⟨1, [5, 6], 48000⟩, Except.error 2,
                          Except.ok ⟨1, [9], 32000⟩]).map Mp3Frame.data).flatten ∧
       asset.buffer.sampleRate =
         finalRate (decodedFrames [Except.ok ⟨1, [5, 6], 48000⟩, Except.error 2,
                                   Except.ok ⟨1, [9], 32000⟩]) 44100) ∧
    SoundAsset.from_mp3 allOk 0 (Mp3File.ok [Except.error 11]) =
      (Except.ok ⟨⟨[], Channels.Mono, 44100⟩, none⟩,
       [NativeCall.newBuffer, NativeCall.bufferData [] Channels.Mono 44100]) :=
  ⟨c10_mp3_partial_decode.1 [⟨1, [5, 6], 48000⟩] 2 [Except.ok ⟨1, [9], 32000⟩],
   c10_mp3_partial_decode.2.1 allOk 0
     [Except.ok ⟨1, [5, 6], 48000⟩, Except.error 2, Except.ok ⟨1, [9], 32000⟩]
     (fun _ => rfl) (by decide),
   c10_mp3_partial_decode.2.2 allOk 0 11 [] (fun _ => rfl)⟩

/-- C3: for every successful decode under a succeeding native layer, the
asset's `mono_buffer` is `None` exactly when the source had one channel —
for WAV, when the file's channel count is 1; for MP3 (whose decoded frames
all report the same channel count `c ≥ 1`, and at least one frame
decoded), when `c = 1`. -/
theorem c3_mono_buffer_iff_single_channel :
    (∀ (env : NativeEnv) (t : Nat) (nch : Nat) (rate : Int) (samples : List Int)
       (asset : SoundAsset) (calls : List NativeCall), (∀ i, env i = none) →
       SoundAsset.from_wav env t (WavFile.ok nch rate samples) = (Except.ok asset, calls) →
       (asset.mono_buffer = none ↔ nch = 1)) ∧
    (∀ (env : NativeEnv) (t : Nat) (stream : List (Except Nat Mp3Frame)) (c : Nat)
       (asset : SoundAsset) (calls : List NativeCall), (∀ i, env i = none) →
       decodedFrames stream ≠ [] → 1 ≤ c →
       (∀ f ∈ decodedFrames stream, f.channels = c) →
       SoundAsset.from_mp3 env t (Mp3File.ok stream) = (Except.ok asset, calls) →
       (asset.mono_buffer = none ↔ c = 1)) := by
  constructor
  · intro env t nch rate samples asset calls henv heq
    by_cases h1 : nch = 1
    · subst h1
      simp [SoundAsset.from_wav, henv] at heq
      simp [← heq.1]
    · by_cases h2 : nch = 2
      · subst h2
        simp [SoundAsset.from_wav, henv] at heq
        simp [← heq.1, h1]
      · simp [SoundAsset.from_wav, henv, h1, h2] at heq
  · intro env t stream c asset calls henv hne hc1 hcall heq
    by_cases hc2 : c ≤ 2
    · have hch : ∀ f ∈ decodedFrames stream, f.channels ≤ 2 := by
        intro f hf
        rw [hcall f hf]
        exact hc2
      have hloop := mp3Loop_ok (decodedFrames stream) [] 44100 Channels.Mono hch
      rcases Nat.lt_or_ge c 2 with hlt | hge
      · have hc : c = 1 := by omega
        subst hc
        have hm : finalChannels (decodedFrames stream) Channels.Mono = Channels.Mono := by
          apply finalChannels_of_all_le_one
          intro f hf
          rw [hcall f hf]
        simp [SoundAsset.from_mp3, hloop, hm, henv] at heq
        simp [← heq.1]
      · have hc : c = 2 := by omega
        subst hc
        obtain ⟨f, hf⟩ := List.exists_mem_of_ne_nil _ hne
        have hst : finalChannels (decodedFrames stream) Channels.Mono = Channels.Stereo := by
          apply finalChannels_of_mem _ _ f hf
          rw [hcall f hf]
          omega
        simp [SoundAsset.from_mp3, hloop, hst, henv] at heq
        simp [← heq.1]
    · obtain ⟨f, hf⟩ := List.exists_mem_of_ne_nil _ hne
      have herr : mp3Loop (decodedFrames stream) [] 44100 Channels.Mono =
          Except.error SoundError.TooMuchChannels := by
        apply mp3Loop_err
        exact ⟨f, hf, by rw [hcall f hf]; omega⟩
      simp [SoundAsset.from_mp3, herr] at heq

/-- C3 witness: a 2-channel WAV yields `mono_buffer = Some`, a 1-frame
mono MP3 yields `mono_buffer = None`. -/
theorem c3_mono_buffer_iff_single_channel_witness :
    ((⟨⟨[1, 2, 3, 4], Channels.Stereo, 44100⟩,
       some ⟨[1, 3], Channels.Mono, 44100⟩⟩ : SoundAsset).mono_buffer = none ↔ 2 = 1) ∧
    ((⟨⟨[5], Channels.Mono, 48000⟩, none⟩ : SoundAsset).mono_buffer = none ↔ 1 = 1) :=
  ⟨c3_mono_buffer_iff_single_channel.1 allOk 0 2 44100 [1, 2, 3, 4]
     ⟨⟨[1, 2, 3, 4], Channels.Stereo, 44100⟩, some ⟨[1, 3], Channels.Mono, 44100⟩⟩
     [NativeCall.newBuffer, NativeCall.newBuffer,
      NativeCall.bufferData [1, 3] Channels.Mono 44100,
      NativeCall.bufferData [1, 2, 3, 4] Channels.Stereo 44100]
     (fun _ => rfl) rfl,
   c3_mono_buffer_iff_single_channel.2 allOk 0 [Except.ok ⟨1, [5], 48000⟩] 1
     ⟨⟨[5], Channels.Mono, 48000⟩, none⟩
     [NativeCall.newBuffer, NativeCall.bufferData [5] Channels.Mono 48000]
     (fun _ => rfl) (by decide) (by decide) (by decide) rfl⟩

/-- Taking every other sample of a concatenation of interleaved stereo
frames recovers the concatenation of the first channels, the total sample
count is twice the first channel's, and every such frame reports two
channels. -/
theorem everyOther_flatten_interleave (frames : List Mp3Frame)
    (pairs : List (List Int × List Int))
    (h : List.Forall₂ (fun (f : Mp3Frame) (p : List Int × List Int) =>
      f.channels = 2 ∧ p.1.length = p.2.length ∧ f.data = interleave p.1 p.2) frames pairs) :
    everyOther ((frames.map Mp3Frame.data).flatten) = (pairs.map Prod.fst).flatten ∧
    ((frames.map Mp3Frame.data).flatten).length = 2 * ((pairs.map Prod.fst).flatten).length ∧
    (∀ f ∈ frames, f.channels = 2) := by
  induction h with
  | nil => simp [everyOther]
  | @cons f p fs ps h1 h2 ih =>
    obtain ⟨hc, hlen, hdata⟩ := h1
    obtain ⟨ih1, ih2, ih3⟩ := ih
    have heven : f.data.length % 2 = 0 := by
      rw [hdata, length_interleave _ _ hlen]
      omega
    refine ⟨?_, ?_, ?_⟩
    · simp only [List.map_cons, List.flatten_cons]
      rw [everyOther_append_even _ _ heven, hdata, everyOther_interleave _ _ hlen, ih1]
    · simp only [List.map_cons, List.flatten_cons, List.length_append]
      rw [hdata, length_interleave _ _ hlen, ih2]
      omega
    · intro g hg
      rcases List.mem_cons.mp hg with rfl | hg2
      · exact hc
      · exact ih3 g hg2

/-- C4: under a succeeding native layer, the mono-downmix buffer holds
exactly the first channel of the interleaved stereo input — for WAV the
first channel handed back by the library's channel iterator, for MP3 every
other sample (`step_by(2)`) of the accumulated interleaved data — and its
sample count is the primary buffer's frame count (its sample count divided
by two); mono inputs produce no mono buffer. -/
theorem c4_downmix_first_channel :
    (∀ (env : NativeEnv) (t : Nat) (rate : Int) (L R : List Int),
       (∀ i, env i = none) → L.length = R.length →
       SoundAsset.from_wav env t (WavFile.ok 2 rate (interleave L R)) =
         (Except.ok ⟨⟨interleave L R, Channels.Stereo, rate⟩,
                     some ⟨L, Channels.Mono, rate⟩⟩,
          [NativeCall.newBuffer, NativeCall.newBuffer,
           NativeCall.bufferData L Channels.Mono rate,
           NativeCall.bufferData (interleave L R) Channels.Stereo rate]) ∧
       L.length = (interleave L R).length / 2) ∧
    (∀ (env : NativeEnv) (t : Nat) (rate : Int) (samples : List Int),
       (∀ i, env i = none) →
       SoundAsset.from_wav env t (WavFile.ok 1 rate samples) =
         (Except.ok ⟨⟨samples, Channels.Mono, rate⟩, none⟩,
          [NativeCall.newBuffer, NativeCall.bufferData samples Channels.Mono rate])) ∧
    (∀ (env : NativeEnv) (t : Nat) (stream : List (Except Nat Mp3Frame))
       (pairs : List (List Int × List Int)),
       (∀ i, env i = none) → decodedFrames stream ≠ [] →
       List.Forall₂ (fun (f : Mp3Frame) (p : List Int × List Int) =>
         f.channels = 2 ∧ p.1.length = p.2.length ∧ f.data = interleave p.1 p.2)
         (decodedFrames stream) pairs →
       ∃ primary calls,
         SoundAsset.from_mp3 env t (Mp3File.ok stream) =
           (Except.ok ⟨primary, some ⟨(pairs.map Prod.fst).flatten, Channels.Mono,
                                      finalRate (decodedFrames stream) 44100⟩⟩, calls) ∧
         ((pairs.map Prod.fst).flatten).length = primary.data.length / 2) ∧
    (∀ (env : NativeEnv) (t : Nat) (stream : List (Except Nat Mp3Frame)),
       (∀ i, env i = none) → (∀ f ∈ decodedFrames stream, f.channels = 1) →
       ∃ asset calls,
         SoundAsset.from_mp3 env t (Mp3File.ok stream) = (Except.ok asset, calls) ∧
         asset.mono_buffer = none) := by
  refine ⟨?_, ?_, ?_, ?_⟩
  · intro env t rate L R henv hlen
    constructor
    · simp [SoundAsset.from_wav, henv, everyOther_interleave L R hlen]
    · rw [length_interleave L R hlen]
      omega
  · intro env t rate samples henv
    simp [SoundAsset.from_wav, henv]
  · intro env t stream pairs henv hne hF
    obtain ⟨heo, hlen2, hch2⟩ := everyOther_flatten_interleave _ _ hF
    have hch : ∀ f ∈ decodedFrames stream, f.channels ≤ 2 := by
      intro f hf
      rw [hch2 f hf]
    have hloop := mp3Loop_ok (decodedFrames stream) [] 44100 Channels.Mono hch
    obtain ⟨f, hf⟩ := List.exists_mem_of_ne_nil _ hne
    have hst : finalChannels (decodedFrames stream) Channels.Mono = Channels.Stereo := by
      apply finalChannels_of_mem _ _ f hf
      rw [hch2 f hf]
      omega
    refine ⟨⟨((decodedFrames stream).map Mp3Frame.data).flatten, Channels.Stereo,
             finalRate (decodedFrames stream) 44100⟩,
            [NativeCall.newBuffer,
             NativeCall.bufferData ((decodedFrames stream).map Mp3Frame.data).flatten
               Channels.Stereo (finalRate (decodedFrames stream) 44100),
             NativeCall.newBuffer,
             NativeCall.bufferData (everyOther ((decodedFrames stream).map Mp3Frame.data).flatten)
               Channels.Mono (finalRate (decodedFrames stream) 44100)], ?_, ?_⟩
    · simp [SoundAsset.from_mp3, hloop, hst, henv, heo]
    · rw [hlen2]
      omega
  · intro env t stream henv h1
    have hch : ∀ f ∈ decodedFrames stream, f.channels ≤ 2 := by
      intro f hf
      rw [h1 f hf]
      omega
    have hm : finalChannels (decodedFrames stream) Channels.Mono = Channels.Mono := by
      apply finalChannels_of_all_le_one
      intro f hf
      rw [h1 f hf]
    have hloop := mp3Loop_ok (decodedFrames stream) [] 44100 Channels.Mono hch
    refine ⟨⟨⟨((decodedFrames stream).map Mp3Frame.data).flatten, Channels.Mono,
              finalRate (decodedFrames stream) 44100⟩, none⟩,
            [NativeCall.newBuffer,
             NativeCall.bufferData ((decodedFrames stream).map Mp3Frame.data).flatten
               Channels.Mono (finalRate (decodedFrames stream) 44100)], ?_, rfl⟩
    simp [SoundAsset.from_mp3, hloop, hm, henv]

/-- C4 witness: the 4-sample stereo stream `[1,2,3,4]` (channels `[1,3]`
and `[2,4]`) in both WAV and MP3 form, a mono WAV with one sample, and a
one-frame mono MP3. -/
theorem c4_downmix_first_channel_witness :
    SoundAsset.from_wav allOk 0 (WavFile.ok 2 44100 (interleave [1, 3] [2, 4])) =
      (Except.ok ⟨⟨interleave [1, 3] [2, 4], Channels.Stereo, 44100⟩,
                  some ⟨[1, 3], Channels.Mono, 44100⟩⟩,
       [NativeCall.newBuffer, NativeCall.newBuffer,
        NativeCall.bufferData [1, 3] Channels.Mono 44100,
        NativeCall.bufferData (interleave [1, 3] [2, 4]) Channels.Stereo 44100]) ∧
    SoundAsset.from_wav allOk 0 (WavFile.ok 1 44100 [7]) =
      (Except.ok ⟨⟨[7], Channels.Mono, 44100⟩, none⟩,
       [NativeCall.newBuffer, NativeCall.bufferData [7] Channels.Mono 44100]) ∧
    (∃ primary calls,
       SoundAsset.from_mp3 allOk 0 (Mp3File.ok [Except.ok ⟨2, [1, 2, 3, 4], 48000⟩]) =
         (Except.ok ⟨primary,
            some ⟨(([([1, 3], [2, 4])]).map Prod.fst).flatten, Channels.Mono,
                  finalRate (decodedFrames [Except.ok ⟨2, [1, 2, 3, 4], 48000⟩]) 44100⟩⟩,
          calls) ∧
       ((([([1, 3], [2, 4])]).map Prod.fst).flatten).length = primary.data.length / 2) ∧
    (∃ asset calls,
       SoundAsset.from_mp3 allOk 0 (Mp3File.ok [Except.ok ⟨1, [5], 48000⟩]) =
         (Except.ok asset, calls) ∧
       asset.mono_buffer = none) :=
  ⟨(c4_downmix_first_channel.1 allOk 0 44100 [1, 3] [2, 4] (fun _ => rfl) rfl).1,
   c4_downmix_first_channel.2.1 allOk 0 44100 [7] (fun _ => rfl),
   c4_downmix_first_channel.2.2.1 allOk 0 [Except.ok ⟨2, [1, 2, 3, 4], 48000⟩]
     [([1, 3], [2, 4])] (fun _ => rfl) (by decide)
     (List.Forall₂.cons ⟨rfl, rfl, rfl⟩ List.Forall₂.nil),
   c4_downmix_first_channel.2.2.2 allOk 0 [Except.ok ⟨1, [5], 48000⟩]
     (fun _ => rfl) (by decide)⟩
